import Mathlib

/-!
Shallow embedding of the weather-api repository: the OpenWeather service
(src/services/openweather.service.ts), the Ollama AI service
(src/services/ollamaai.service.ts) and the route-level error mapper
(routes, mapToHTTPException).  JavaScript Map objects are modelled as
insertion-ordered association lists, Date.now() as an explicit Nat
millisecond clock, fetch outcomes and JSON payload validation as explicit
environment values, and Sentry as an event list returned alongside the
result.  Numbers are modelled as rationals (epoch seconds as integers).
-/

deriving instance DecidableEq for Except

/-- Model of a JavaScript Map lookup: first entry with the given key. -/
def mapGet {α : Type} (m : List (String × α)) (k : String) : Option α :=
  match m with
  | [] => none
  | (k₁, v) :: rest => if k₁ = k then some v else mapGet rest k

/-- Model of JavaScript Map.set: replace in place when the key is present
(insertion order is preserved), otherwise append at the end. -/
def mapSet {α : Type} (m : List (String × α)) (k : String) (v : α) :
    List (String × α) :=
  match m with
  | [] => [(k, v)]
  | (k₁, v₁) :: rest =>
      if k₁ = k then (k, v) :: rest else (k₁, v₁) :: mapSet rest k v

/-- Model of JavaScript Map.delete: remove the entry with the given key. -/
def mapDelete {α : Type} (m : List (String × α)) (k : String) :
    List (String × α) :=
  match m with
  | [] => []
  | (k₁, v₁) :: rest =>
      if k₁ = k then rest else (k₁, v₁) :: mapDelete rest k

/-- Keys of the map model, in insertion order. -/
def mapKeys {α : Type} (m : List (String × α)) : List String :=
  m.map Prod.fst

/-- Fueled helper for decimal digit rendering; the fuel only serves to
make the recursion structural, natDigits supplies enough of it. -/
def natDigitsAux (fuel : Nat) (n : Nat) : List Char :=
  match fuel with
  | 0 => []
  | fuel + 1 =>
      if n < 10 then [Nat.digitChar n]
      else natDigitsAux fuel (n / 10) ++ [Nat.digitChar (n % 10)]

/-- Decimal digits of a natural number, most significant first
(model of the digit sequence JavaScript number rendering produces). -/
def natDigits (n : Nat) : List Char :=
  natDigitsAux (n + 1) n

/-- Left-pad a digit list with zeros to the given width. -/
def padLeft (w : Nat) (l : List Char) : List Char :=
  List.replicate (w - l.length) '0' ++ l

/-- Floor of a rational number, computed from its reduced fraction. -/
def ratFloor (q : ℚ) : ℤ :=
  q.num.fdiv q.den

/-- The integer n minimizing the distance between n / 10^4 and x, ties
toward the larger n, as the ECMAScript toFixed algorithm computes for a
nonnegative argument. -/
def scaled4 (x : ℚ) : ℤ :=
  ratFloor (x * 10000 + 1 / 2)

/-- Decimal rendering with exactly four fraction digits of a nonnegative
number, as characters. -/
def toFixed4Pos (x : ℚ) : List Char :=
  let n : Nat := (scaled4 x).toNat
  natDigits (n / 10000) ++ '.' :: padLeft 4 (natDigits (n % 10000))

/-- Model of the JavaScript call x.toFixed(4): a negative argument is
rendered as the minus sign followed by the rendering of its negation. -/
def toFixed4 (x : ℚ) : String :=
  String.mk (if x < 0 then '-' :: toFixed4Pos (-x) else toFixed4Pos x)

/-- Cache entry structure for storing data with expiration
(openweather.service.ts, lines 32-35; ollamaai.service.ts, lines 23-26). -/
structure CacheEntry (α : Type) where
  data : α
  expires : Nat
deriving DecidableEq, Repr

/-- Model of a JavaScript error value, as far as the source inspects it:
whether it is a DOMException and its name field. -/
structure JsError where
  isDomException : Bool
  name : String
deriving DecidableEq, Repr

/-- The condition the source tests for the abort/timeout signal raised by
AbortSignal.timeout: a DOMException whose name is TimeoutError. -/
def isTimeoutSignal (e : JsError) : Bool :=
  e.isDomException && e.name == "TimeoutError"

/-- Outcome of one raw fetch call: either the promise rejects with a
network error, or it resolves to a response value of type ρ. -/
inductive FetchOutcome (ρ : Type) where
  | netFailure (e : JsError)
  | response (r : ρ)
deriving DecidableEq, Repr

/-- Telemetry events sent to the Sentry collaborator. -/
inductive Telemetry where
  | captureMessage (text : String) (level : String)
      (originalMessage : Option String)
  | captureExceptionGeo (responseData : String) (city : String)
  | captureExceptionWeather (responseData : String) (lat lon : ℚ)
      (units : String)
deriving DecidableEq, Repr

namespace OpenWeather

/-- Cache TTL in milliseconds (10 minutes), openweather.service.ts line 22. -/
def CACHE_TTL : Nat := 10 * 60 * 1000

/-- Fetch timeout in milliseconds, openweather.service.ts line 27. -/
def FETCH_TIMEOUT : Nat := 5000

/-- Custom error class for OpenWeather API errors
(openweather.service.ts, lines 52-61). -/
structure OpenWeatherError where
  statusCode : Nat
  errorMessage : String
  originalError : Option JsError := none
deriving DecidableEq, Repr

/-- Generates a cache key for weather data (openweather.service.ts,
lines 70-72): latitude and longitude rendered with toFixed(4), joined
with the units string by commas. -/
def getWeatherCacheKey (lat lon : ℚ) (units : String) : String :=
  toFixed4 lat ++ "," ++ toFixed4 lon ++ "," ++ units

/-- Generates a cache key for geocoding data (openweather.service.ts,
lines 79-81): the city name lowercased and trimmed. -/
def getGeoCacheKey (city : String) : String :=
  (city.toLower).trim

/-- Retrieves an item from cache if it exists and has not expired
(openweather.service.ts, lines 89-102).  Returns the value (or none) and
the cache after the lookup, since an expired entry is deleted. -/
def getFromCache {α : Type} (cache : List (String × CacheEntry α))
    (key : String) (now : Nat) : Option α × List (String × CacheEntry α) :=
  match mapGet cache key with
  | some entry =>
      if entry.expires > now then (some entry.data, cache)
      else (none, mapDelete cache key)
  | none => (none, cache)

/-- Stores an item in cache with TTL (openweather.service.ts,
lines 110-119): expiry is now + CACHE_TTL at insertion time. -/
def setInCache {α : Type} (cache : List (String × CacheEntry α))
    (key : String) (data : α) (now : Nat) : List (String × CacheEntry α) :=
  mapSet cache key { data := data, expires := now + CACHE_TTL }

/-- Model of the JavaScript expression m || d for an optional string m:
the default replaces both an absent and an empty message. -/
def jsStringOr (m : Option String) (d : String) : String :=
  match m with
  | some s => if s = "" then d else s
  | none => d

/-- Maps OpenWeather error codes to status codes and messages
(openweather.service.ts, lines 127-149).  Returns the error together
with the telemetry the call emits: a 429 sends one captureMessage at
warning level, no other code sends anything. -/
def mapOpenWeatherError (statusCode : Nat) (message : Option String) :
    OpenWeatherError × List Telemetry :=
  match statusCode with
  | 401 => (⟨401, "Invalid API key", none⟩, [])
  | 404 => (⟨404, "City not found", none⟩, [])
  | 429 =>
      (⟨429, "Rate limit exceeded", none⟩,
        [Telemetry.captureMessage "OpenWeather API rate limit exceeded"
          "warning" message])
  | s => (⟨s, jsStringOr message "OpenWeather API error", none⟩, [])

/-- Makes a fetch request with timeout handling (openweather.service.ts,
lines 157-176): a TimeoutError DOMException becomes a 504 OpenWeatherError,
any other rejection becomes a 503 OpenWeatherError carrying the original
error, and a resolved response is returned unchanged. -/
def fetchWithTimeout {ρ : Type} (outcome : FetchOutcome ρ) :
    Except OpenWeatherError ρ :=
  match outcome with
  | .response r => .ok r
  | .netFailure e =>
      if isTimeoutSignal e then
        .error ⟨504, "Request timeout - OpenWeather API did not respond in time", none⟩
      else
        .error ⟨503, "Failed to connect to OpenWeather API", some e⟩

/-- Geographic coordinates (CoordSchema, openweather.schema.ts). -/
structure Coord where
  lon : ℚ
  lat : ℚ
deriving DecidableEq, Repr

/-- Weather condition details (WeatherConditionSchema). -/
structure WeatherCondition where
  id : ℚ
  main : String
  description : String
  icon : String
deriving DecidableEq, Repr

/-- Main weather data (MainWeatherSchema). -/
structure MainWeather where
  temp : ℚ
  feels_like : ℚ
  temp_min : ℚ
  temp_max : ℚ
  pressure : ℚ
  humidity : ℚ
  sea_level : ℚ
  grnd_level : ℚ
  temp_kf : Option ℚ := none
deriving DecidableEq, Repr

/-- Wind data (WindSchema). -/
structure Wind where
  speed : ℚ
  deg : ℚ
  gust : ℚ
deriving DecidableEq, Repr

/-- Cloud coverage (CloudsSchema). -/
structure Clouds where
  all : ℚ
deriving DecidableEq, Repr

/-- Rain or snow volume (RainSchema / SnowSchema): the optional fields
named 1h and 3h, for the last one and three hours. -/
structure Volume where
  h1 : Option ℚ := none
  h3 : Option ℚ := none
deriving DecidableEq, Repr

/-- System information (SysSchema); sunrise and sunset are epoch seconds. -/
structure Sys where
  type : Option ℚ := none
  id : Option ℚ := none
  country : String
  sunrise : ℤ
  sunset : ℤ
deriving DecidableEq, Repr

/-- Validated OpenWeather current weather payload
(OpenWeatherCurrentResponseSchema); dt and timezone are epoch seconds
and a UTC offset in seconds. -/
structure OpenWeatherCurrentResponse where
  coord : Coord
  weather : List WeatherCondition
  base : String
  main : MainWeather
  visibility : ℚ
  wind : Wind
  clouds : Clouds
  rain : Option Volume := none
  snow : Option Volume := none
  dt : ℤ
  sys : Sys
  timezone : ℤ
  id : ℚ
  name : String
  cod : ℚ
deriving DecidableEq, Repr

instance : Inhabited WeatherCondition := ⟨⟨0, "", "", ""⟩⟩

/-- A single validated geocoding result (GeocodingResultSchema). -/
structure GeocodingResult where
  name : String
  lat : ℚ
  lon : ℚ
  country : String
  state : Option String := none
deriving DecidableEq, Repr

/-- The body of an HTTP response as the service observes it: the payload
either validates against the expected schema (yielding a value of type σ)
or fails validation (carrying the raw JSON it was parsed from). -/
inductive Payload (σ : Type) where
  | valid (v : σ)
  | invalid (raw : String)
deriving DecidableEq, Repr

/-- An HTTP response from the upstream service: ok / status line, the
error-body parse outcome used on the non-ok path (whether response.json()
succeeds and what its message field holds), and the success-path payload. -/
structure HttpResponse (σ : Type) where
  ok : Bool
  status : Nat
  errJsonOk : Bool := true
  errMessage : Option String := none
  payload : Payload σ
deriving DecidableEq, Repr

/-- The message the non-2xx path extracts from the error body
(openweather.service.ts, lines 203-207 and 261-265): response.json()
failure substitutes an object with message "Unknown error". -/
def errBodyMessage {σ : Type} (r : HttpResponse σ) : Option String :=
  if r.errJsonOk then r.errMessage else some "Unknown error"

/-- Result of one geocodeCity call: the returned value or error, the
geocoding cache afterwards, the telemetry emitted, and whether an
upstream network call was issued (the cache missed). -/
structure GeoCallResult where
  result : Except OpenWeatherError GeocodingResult
  cache : List (String × CacheEntry GeocodingResult)
  telemetry : List Telemetry
  requested : Bool
deriving Repr

/-- Converts a city name to geographic coordinates
(openweather.service.ts, lines 185-230): consult the cache, otherwise
issue the bounded-time fetch, map a non-ok status through
mapOpenWeatherError, report a schema-validation failure to telemetry and
fail with 500, treat an empty result array as 404, and cache a success. -/
def geocodeCity (city : String)
    (outcome : FetchOutcome (HttpResponse (List GeocodingResult)))
    (now : Nat) (cache : List (String × CacheEntry GeocodingResult)) :
    GeoCallResult :=
  let cacheKey := getGeoCacheKey city
  match getFromCache cache cacheKey now with
  | (some cached, cache₁) => ⟨.ok cached, cache₁, [], false⟩
  | (none, cache₁) =>
    match fetchWithTimeout outcome with
    | .error e => ⟨.error e, cache₁, [], true⟩
    | .ok response =>
      if response.ok = false then
        let (err, tel) := mapOpenWeatherError response.status (errBodyMessage response)
        ⟨.error err, cache₁, tel, true⟩
      else
        match response.payload with
        | .invalid raw =>
            ⟨.error ⟨500, "Invalid response from geocoding API", none⟩,
              cache₁, [Telemetry.captureExceptionGeo raw city], true⟩
        | .valid [] =>
            ⟨.error ⟨404, "City not found: " ++ city, none⟩, cache₁, [], true⟩
        | .valid (result :: _) =>
            ⟨.ok result, setInCache cache₁ cacheKey result now, [], true⟩

/-- Result of one fetchCurrentWeather call: the returned (data, cached)
pair or error, the weather cache afterwards, the telemetry emitted, and
the upstream request parameters when a network call was issued (the
query-string values lat, lon, units, lang of the built URL). -/
structure WeatherCallResult where
  result : Except OpenWeatherError (OpenWeatherCurrentResponse × Bool)
  cache : List (String × CacheEntry OpenWeatherCurrentResponse)
  telemetry : List Telemetry
  request : Option (ℚ × ℚ × String × String)
deriving Repr

/-- Fetches current weather data (openweather.service.ts, lines 242-282):
consult the cache under the rounded-coordinate key, otherwise issue the
bounded-time fetch, map a non-ok status through mapOpenWeatherError,
report a schema-validation failure to telemetry and fail with 500, and
cache a validated success, returned with cached = false. -/
def fetchCurrentWeather (lat lon : ℚ) (units lang : String)
    (outcome : FetchOutcome (HttpResponse OpenWeatherCurrentResponse))
    (now : Nat) (cache : List (String × CacheEntry OpenWeatherCurrentResponse)) :
    WeatherCallResult :=
  let cacheKey := getWeatherCacheKey lat lon units
  match getFromCache cache cacheKey now with
  | (some cached, cache₁) => ⟨.ok (cached, true), cache₁, [], none⟩
  | (none, cache₁) =>
    match fetchWithTimeout outcome with
    | .error e => ⟨.error e, cache₁, [], some (lat, lon, units, lang)⟩
    | .ok response =>
      if response.ok = false then
        let (err, tel) := mapOpenWeatherError response.status (errBodyMessage response)
        ⟨.error err, cache₁, tel, some (lat, lon, units, lang)⟩
      else
        match response.payload with
        | .invalid raw =>
            ⟨.error ⟨500, "Invalid response from weather API", none⟩, cache₁,
              [Telemetry.captureExceptionWeather raw lat lon units],
              some (lat, lon, units, lang)⟩
        | .valid data =>
            ⟨.ok (data, false), setInCache cache₁ cacheKey data now, [],
              some (lat, lon, units, lang)⟩

/-- Proleptic Gregorian date (year, month, day) of a day count relative
to 1970-01-01, the civil-from-days algorithm used by UTC date rendering. -/
def civilFromDays (z₀ : ℤ) : ℤ × Nat × Nat :=
  let z : ℤ := z₀ + 719468
  let era : ℤ := z.fdiv 146097
  let doe : Nat := (z - era * 146097).toNat
  let yoe : Nat := (doe - doe / 1461 + doe / 36524 - doe / 146096) / 365
  let y : ℤ := (yoe : ℤ) + era * 400
  let doy : Nat := doe - (365 * yoe + yoe / 4 - yoe / 100)
  let mp : Nat := (5 * doy + 2) / 153
  let d : Nat := doy - (153 * mp + 2) / 5 + 1
  let m : Nat := if mp < 10 then mp + 3 else mp - 9
  (if m ≤ 2 then y + 1 else y, m, d)

/-- Model of Date.prototype.toISOString on a millisecond epoch value:
the UTC calendar fields rendered as an ISO-8601 string with millisecond
precision and a Z suffix (expanded six-digit years outside 0000-9999). -/
def isoOfMillis (ms : ℤ) : String :=
  let secs : ℤ := ms.fdiv 1000
  let msPart : Nat := (ms - secs * 1000).toNat
  let days : ℤ := secs.fdiv 86400
  let sod : Nat := (secs - days * 86400).toNat
  let ymd := civilFromDays days
  let y : ℤ := ymd.1
  let month : Nat := ymd.2.1
  let day : Nat := ymd.2.2
  let yearChars : List Char :=
    if 0 ≤ y ∧ y ≤ 9999 then padLeft 4 (natDigits y.toNat)
    else if y < 0 then '-' :: padLeft 6 (natDigits (-y).toNat)
    else '+' :: padLeft 6 (natDigits y.toNat)
  String.mk (yearChars ++ '-' :: padLeft 2 (natDigits month) ++
    '-' :: padLeft 2 (natDigits day) ++ 'T' :: padLeft 2 (natDigits (sod / 3600)) ++
    ':' :: padLeft 2 (natDigits (sod % 3600 / 60)) ++
    ':' :: padLeft 2 (natDigits (sod % 60)) ++
    '.' :: padLeft 3 (natDigits msPart) ++ ['Z'])

/-- Converts a Unix timestamp to an ISO datetime string
(openweather.service.ts, lines 290-294): the source constructs a Date
from (timestamp + timezoneOffset) * 1000 but discards it, and returns
the ISO rendering of timestamp * 1000 alone. -/
def unixToISOString (timestamp : ℤ) (timezoneOffset : ℤ) : String :=
  let _date : ℤ := (timestamp + timezoneOffset) * 1000
  isoOfMillis (timestamp * 1000)

/-- Location block of the outward response. -/
structure LocationResponse where
  name : String
  country : String
  coordinates : Coord
  timezone : ℤ
  sunrise : String
  sunset : String
deriving DecidableEq, Repr

/-- Temperature block of the outward response. -/
structure TemperatureResponse where
  current : ℚ
  feels_like : ℚ
  min : ℚ
  max : ℚ
  unit : String
deriving DecidableEq, Repr

/-- Wind block of the outward response. -/
structure WindResponse where
  speed : ℚ
  direction : ℚ
  gust : ℚ
  unit : String
deriving DecidableEq, Repr

/-- Atmosphere block of the outward response. -/
structure AtmosphereResponse where
  humidity : ℚ
  pressure : ℚ
  visibility : ℚ
  cloudiness : ℚ
deriving DecidableEq, Repr

/-- Precipitation block of the outward response: the copied optional
rain and snow volumes. -/
structure PrecipitationResponse where
  rain : Option Volume
  snow : Option Volume
deriving DecidableEq, Repr

/-- The outward-facing current weather response shape
(CurrentWeatherResponseSchema, weather.schema.ts). -/
structure CurrentWeatherResponse where
  location : LocationResponse
  weather : WeatherCondition
  temperature : TemperatureResponse
  wind : WindResponse
  atmosphere : AtmosphereResponse
  precipitation : Option PrecipitationResponse
  timestamp : String
  cached : Bool
deriving DecidableEq, Repr

/-- Transforms an OpenWeather API response to the outward response format
(openweather.service.ts, lines 303-368).  The precipitation field is
present exactly when the snapshot carries a rain or a snow object, and
then copies their 1h and 3h fields; the three time strings come from
unixToISOString with offset 0. -/
def transformWeatherResponse (owResponse : OpenWeatherCurrentResponse)
    (units : String) (cached : Bool) : CurrentWeatherResponse :=
  let tempUnit := if units = "metric" then "°C" else "°F"
  let windUnit := if units = "metric" then "m/s" else "mph"
  { location :=
      { name := owResponse.name
        country := owResponse.sys.country
        coordinates := { lat := owResponse.coord.lat, lon := owResponse.coord.lon }
        timezone := owResponse.timezone
        sunrise := unixToISOString owResponse.sys.sunrise 0
        sunset := unixToISOString owResponse.sys.sunset 0 }
    weather :=
      { id := (owResponse.weather.headI).id
        main := (owResponse.weather.headI).main
        description := (owResponse.weather.headI).description
        icon := (owResponse.weather.headI).icon }
    temperature :=
      { current := owResponse.main.temp
        feels_like := owResponse.main.feels_like
        min := owResponse.main.temp_min
        max := owResponse.main.temp_max
        unit := tempUnit }
    wind :=
      { speed := owResponse.wind.speed
        direction := owResponse.wind.deg
        gust := owResponse.wind.gust
        unit := windUnit }
    atmosphere :=
      { humidity := owResponse.main.humidity
        pressure := owResponse.main.pressure
        visibility := owResponse.visibility
        cloudiness := owResponse.clouds.all }
    precipitation :=
      if owResponse.rain.isSome || owResponse.snow.isSome then
        some
          { rain := owResponse.rain.map fun r => { h1 := r.h1, h3 := r.h3 }
            snow := owResponse.snow.map fun s => { h1 := s.h1, h3 := s.h3 } }
      else none
    timestamp := unixToISOString owResponse.dt 0
    cached := cached }

/-- Weather query parameters as the service destructures them
(openweather.service.ts, line 382): city, units, lang, lat, lon. -/
structure WeatherQuery where
  city : Option String := none
  units : String
  lang : Option String := none
  lat : Option ℚ := none
  lon : Option ℚ := none
deriving DecidableEq, Repr

/-- JavaScript truthiness of the optional city string: undefined and the
empty string are falsy. -/
def cityTruthy (city : Option String) : Bool :=
  match city with
  | none => false
  | some s => s ≠ ""

/-- The two caches of openweather.service.ts. -/
structure ServiceState where
  weatherCache : List (String × CacheEntry OpenWeatherCurrentResponse)
  geoCache : List (String × CacheEntry GeocodingResult)
deriving Repr

/-- Result of one getCurrentWeather call: the response or error, both
caches afterwards, combined telemetry, whether the geocode stage issued
an upstream call, and the arguments the weather stage was invoked with
(none when the geocode stage threw before step 2). -/
structure GetCurrentWeatherResult where
  result : Except OpenWeatherError CurrentWeatherResponse
  state : ServiceState
  telemetry : List Telemetry
  geoRequested : Bool
  fetchArgs : Option (ℚ × ℚ × String × String)
  weatherRequest : Option (ℚ × ℚ × String × String)
deriving Repr

/-- Main service function (openweather.service.ts, lines 378-402):
geocode when a city name is present (an OpenWeatherError from geocoding
propagates unchanged), then fetch current weather at the geocoded
coordinates, or the caller coordinates, or 0 when absent, and transform
the result. -/
def getCurrentWeather (query : WeatherQuery)
    (geoOutcome : FetchOutcome (HttpResponse (List GeocodingResult)))
    (weatherOutcome : FetchOutcome (HttpResponse OpenWeatherCurrentResponse))
    (now : Nat) (st : ServiceState) : GetCurrentWeatherResult :=
  let language := query.lang.getD "en"
  let geoStep : Option GeoCallResult :=
    if cityTruthy query.city then
      some (geocodeCity (query.city.getD "") geoOutcome now st.geoCache)
    else none
  match geoStep with
  | some g =>
    match g.result with
    | .error e =>
        ⟨.error e, ⟨st.weatherCache, g.cache⟩, g.telemetry, g.requested,
          none, none⟩
    | .ok geoResult =>
        let la := geoResult.lat
        let lo := geoResult.lon
        let f := fetchCurrentWeather la lo query.units language
          weatherOutcome now st.weatherCache
        ⟨(f.result.map fun p => transformWeatherResponse p.1 query.units p.2),
          ⟨f.cache, g.cache⟩, g.telemetry ++ f.telemetry, g.requested,
          some (la, lo, query.units, language), f.request⟩
  | none =>
      let la := query.lat.getD 0
      let lo := query.lon.getD 0
      let f := fetchCurrentWeather la lo query.units language
        weatherOutcome now st.weatherCache
      ⟨(f.result.map fun p => transformWeatherResponse p.1 query.units p.2),
        ⟨f.cache, st.geoCache⟩, f.telemetry, false,
        some (la, lo, query.units, language), f.request⟩

end OpenWeather

/-- Model of the route-level HTTPException the boundary layer builds. -/
structure HTTPExceptionModel where
  status : Nat
  message : String
deriving DecidableEq, Repr

/-- Maps OpenWeatherError to an HTTPException (routes, mapToHTTPException):
the status code and message are carried over unchanged. -/
def mapToHTTPException (e : OpenWeather.OpenWeatherError) : HTTPExceptionModel :=
  ⟨e.statusCode, e.errorMessage⟩

namespace OllamaAI

/-- Validated Ollama AI payload (AITextResponseSchema, ai.schema.ts). -/
structure AITextResponse where
  text : String
deriving DecidableEq, Repr

/-- Cache TTL in milliseconds (30 minutes), ollamaai.service.ts line 13. -/
def CACHE_TTL : Nat := 30 * 60 * 1000

/-- Maximum number of cache entries, ollamaai.service.ts line 18. -/
def MAX_CACHE_ENTRIES : Nat := 500

/-- Generates a cache key for AI data (ollamaai.service.ts, lines 41-47):
host, model and the trimmed prompt joined with double colons. -/
def getAICacheKey (prompt ollamaHost ollamaModel : String) : String :=
  ollamaHost ++ "::" ++ ollamaModel ++ "::" ++ prompt.trim

/-- Retrieves an item from cache if it exists and has not expired
(ollamaai.service.ts, lines 55-68), identical to the OpenWeather store. -/
def getFromCache {α : Type} (cache : List (String × CacheEntry α))
    (key : String) (now : Nat) : Option α × List (String × CacheEntry α) :=
  match mapGet cache key with
  | some entry =>
      if entry.expires > now then (some entry.data, cache)
      else (none, mapDelete cache key)
  | none => (none, cache)

/-- Stores an item in cache with TTL (ollamaai.service.ts, lines 76-91):
when the store already holds MAX_CACHE_ENTRIES entries or more, the
first key in iteration order (the oldest-inserted key) is deleted first,
guarded by its JavaScript truthiness; then the entry is set. -/
def setInCache {α : Type} (cache : List (String × CacheEntry α))
    (key : String) (data : α) (now : Nat) : List (String × CacheEntry α) :=
  let cache₁ :=
    if cache.length ≥ MAX_CACHE_ENTRIES then
      match (mapKeys cache).head? with
      | some oldestKey => if oldestKey ≠ "" then mapDelete cache oldestKey else cache
      | none => cache
    else cache
  mapSet cache₁ key { data := data, expires := now + CACHE_TTL }

end OllamaAI

/-- The keys of the association-list map are pairwise distinct, the
invariant every JavaScript Map satisfies. -/
def keysNodup {α : Type} (m : List (String × α)) : Prop :=
  (mapKeys m).Nodup

/-- Sample validated weather snapshot used by the concrete witnesses. -/
def sampleSnapshot : OpenWeather.OpenWeatherCurrentResponse :=
  { coord := { lon := -0.1278, lat := 51.5074 }
    weather := [{ id := 800, main := "Clear", description := "clear sky", icon := "01d" }]
    base := "stations"
    main := { temp := 15.5, feels_like := 14.8, temp_min := 13, temp_max := 17,
              pressure := 1013, humidity := 65, sea_level := 1013,
              grnd_level := 1009 }
    visibility := 10000
    wind := { speed := 5.2, deg := 180, gust := 7.8 }
    clouds := { all := 20 }
    dt := 1705320630
    sys := { country := "GB", sunrise := 1705305900, sunset := 1705335000 }
    timezone := 0
    id := 2643743
    name := "London"
    cod := 200 }

/-- Sample snapshot carrying a rain field, used by the concrete witnesses. -/
def sampleRainy : OpenWeather.OpenWeatherCurrentResponse :=
  { sampleSnapshot with rain := some { h1 := some 0.5, h3 := none } }

/-- Sample geocoding result used by the concrete witnesses. -/
def sampleGeo : OpenWeather.GeocodingResult :=
  { name := "London", lat := 51.5074, lon := -0.1278, country := "GB" }

theorem mapGet_mapSet_self {α : Type} (m : List (String × α)) (k : String)
    (v : α) : mapGet (mapSet m k v) k = some v := by
  induction m with
  | nil => simp [mapSet, mapGet]
  | cons p rest ih =>
      obtain ⟨k₁, v₁⟩ := p
      by_cases h : k₁ = k
      · simp [mapSet, h, mapGet]
      · simp [mapSet, h, mapGet, ih]

theorem mapGet_mapSet_ne {α : Type} (m : List (String × α)) (k k₂ : String)
    (v : α) (h : k ≠ k₂) : mapGet (mapSet m k v) k₂ = mapGet m k₂ := by
  induction m with
  | nil => simp [mapSet, mapGet, h]
  | cons p rest ih =>
      obtain ⟨k₁, v₁⟩ := p
      by_cases h₁ : k₁ = k
      · simp [mapSet, h₁, mapGet, h]
      · simp [mapSet, h₁, mapGet, ih]

theorem mapGet_mapDelete_ne {α : Type} (m : List (String × α)) (k k₂ : String)
    (h : k ≠ k₂) : mapGet (mapDelete m k) k₂ = mapGet m k₂ := by
  induction m with
  | nil => simp [mapDelete]
  | cons p rest ih =>
      obtain ⟨k₁, v₁⟩ := p
      by_cases h₁ : k₁ = k
      · subst h₁
        simp [mapDelete, mapGet, h]
      · simp [mapDelete, h₁, mapGet, ih]

theorem mapGet_eq_none_of_not_mem {α : Type} (m : List (String × α))
    (k : String) (h : k ∉ mapKeys m) : mapGet m k = none := by
  induction m with
  | nil => simp [mapGet]
  | cons p rest ih =>
      obtain ⟨k₁, v₁⟩ := p
      simp only [mapKeys, List.map_cons, List.mem_cons, not_or] at h
      obtain ⟨hne, hrest⟩ := h
      rw [mapGet, if_neg fun hh => hne hh.symm]
      exact ih hrest

theorem mapKeys_mapDelete_subset {α : Type} (m : List (String × α))
    (k k₂ : String) (h : k₂ ∈ mapKeys (mapDelete m k)) : k₂ ∈ mapKeys m := by
  induction m with
  | nil => simpa [mapDelete] using h
  | cons p rest ih =>
      obtain ⟨k₁, v₁⟩ := p
      by_cases h₁ : k₁ = k
      · simp only [mapDelete, if_pos h₁] at h
        simp only [mapKeys, List.map_cons, List.mem_cons]
        exact Or.inr h
      · simp only [mapDelete, if_neg h₁] at h
        simp only [mapKeys, List.map_cons, List.mem_cons] at h ⊢
        rcases h with h | h
        · exact Or.inl h
        · exact Or.inr (ih h)

theorem keysNodup_mapDelete {α : Type} (m : List (String × α)) (k : String)
    (h : keysNodup m) : keysNodup (mapDelete m k) := by
  induction m with
  | nil => simpa [mapDelete] using h
  | cons p rest ih =>
      obtain ⟨k₁, v₁⟩ := p
      simp only [keysNodup, mapKeys, List.map_cons, List.nodup_cons] at h
      by_cases h₁ : k₁ = k
      · simpa [keysNodup, mapDelete, h₁, mapKeys] using h.2
      · simp only [mapDelete, if_neg h₁]
        simp only [keysNodup, mapKeys, List.map_cons, List.nodup_cons]
        exact ⟨fun hmem => h.1 (mapKeys_mapDelete_subset rest k k₁ hmem),
          ih h.2⟩

theorem mapGet_mapDelete_self {α : Type} (m : List (String × α)) (k : String)
    (h : keysNodup m) : mapGet (mapDelete m k) k = none := by
  induction m with
  | nil => simp [mapDelete, mapGet]
  | cons p rest ih =>
      obtain ⟨k₁, v₁⟩ := p
      simp only [keysNodup, mapKeys, List.map_cons, List.nodup_cons] at h
      by_cases h₁ : k₁ = k
      · subst h₁
        simp only [mapDelete, if_pos rfl]
        exact mapGet_eq_none_of_not_mem rest k₁ h.1
      · simp only [mapDelete, if_neg h₁, mapGet, if_neg h₁]
        exact ih h.2

theorem mapKeys_mapSet_subset {α : Type} (m : List (String × α))
    (k k₂ : String) (v : α) (h : k₂ ∈ mapKeys (mapSet m k v)) :
    k₂ ∈ mapKeys m ∨ k₂ = k := by
  induction m with
  | nil => simpa [mapSet, mapKeys] using h
  | cons p rest ih =>
      obtain ⟨k₁, v₁⟩ := p
      by_cases h₁ : k₁ = k
      · simp only [mapSet, if_pos h₁, mapKeys, List.map_cons, List.mem_cons] at h
        rcases h with h | h
        · exact Or.inr h
        · exact Or.inl (by
            simp only [mapKeys, List.map_cons, List.mem_cons]
            exact Or.inr h)
      · simp only [mapSet, if_neg h₁, mapKeys, List.map_cons, List.mem_cons] at h ⊢
        rcases h with h | h
        · exact Or.inl (Or.inl h)
        · rcases ih h with h₂ | h₂
          · exact Or.inl (Or.inr h₂)
          · exact Or.inr h₂

theorem keysNodup_mapSet {α : Type} (m : List (String × α)) (k : String)
    (v : α) (h : keysNodup m) : keysNodup (mapSet m k v) := by
  induction m with
  | nil => simp [keysNodup, mapSet, mapKeys]
  | cons p rest ih =>
      obtain ⟨k₁, v₁⟩ := p
      simp only [keysNodup, mapKeys, List.map_cons, List.nodup_cons] at h
      by_cases h₁ : k₁ = k
      · subst h₁
        have hset : mapSet ((k₁, v₁) :: rest) k₁ v = (k₁, v) :: rest := by
          simp [mapSet]
        rw [hset]
        simp only [keysNodup, mapKeys, List.map_cons, List.nodup_cons]
        exact h
      · simp only [mapSet, if_neg h₁, keysNodup, mapKeys, List.map_cons,
          List.nodup_cons]
        refine ⟨fun hmem => ?_, ih h.2⟩
        rcases mapKeys_mapSet_subset rest k k₁ v hmem with h₂ | h₂
        · exact h.1 h₂
        · exact h₁ h₂

theorem length_mapSet_le {α : Type} (m : List (String × α)) (k : String)
    (v : α) : (mapSet m k v).length ≤ m.length + 1 := by
  induction m with
  | nil => simp [mapSet]
  | cons p rest ih =>
      obtain ⟨k₁, v₁⟩ := p
      by_cases h : k₁ = k
      · simp [mapSet, h]
      · simp only [mapSet, if_neg h, List.length_cons]
        omega

theorem length_mapSet_of_absent {α : Type} (m : List (String × α))
    (k : String) (v : α) (h : mapGet m k = none) :
    (mapSet m k v).length = m.length + 1 := by
  induction m with
  | nil => simp [mapSet]
  | cons p rest ih =>
      obtain ⟨k₁, v₁⟩ := p
      by_cases h₁ : k₁ = k
      · simp [mapGet, h₁] at h
      · simp only [mapGet, if_neg h₁] at h
        simp [mapSet, if_neg h₁, ih h]

set_option maxHeartbeats 1000000 in
theorem digitChar_ne_comma (d : Nat) : Nat.digitChar d ≠ ',' := by
  rcases Nat.lt_or_ge d 16 with h | h
  · interval_cases d <;> decide
  · have h₁ : Nat.digitChar d = '*' := by
      unfold Nat.digitChar
      rw [if_neg (by omega : ¬ d = 0), if_neg (by omega : ¬ d = 1),
        if_neg (by omega : ¬ d = 2), if_neg (by omega : ¬ d = 3),
        if_neg (by omega : ¬ d = 4), if_neg (by omega : ¬ d = 5),
        if_neg (by omega : ¬ d = 6), if_neg (by omega : ¬ d = 7),
        if_neg (by omega : ¬ d = 8), if_neg (by omega : ¬ d = 9),
        if_neg (by omega : ¬ d = 10), if_neg (by omega : ¬ d = 11),
        if_neg (by omega : ¬ d = 12), if_neg (by omega : ¬ d = 13),
        if_neg (by omega : ¬ d = 14), if_neg (by omega : ¬ d = 15)]
    rw [h₁]
    decide

theorem comma_not_mem_natDigitsAux (fuel : Nat) : ∀ n, ',' ∉ natDigitsAux fuel n := by
  induction fuel with
  | zero => intro n; simp [natDigitsAux]
  | succ fuel ih =>
      intro n
      rw [natDigitsAux]
      split
      · simp only [List.mem_singleton]
        exact fun hh => digitChar_ne_comma n hh.symm
      · simp only [List.mem_append, List.mem_singleton, not_or]
        exact ⟨ih _, fun hh => digitChar_ne_comma (n % 10) hh.symm⟩

theorem comma_not_mem_natDigits (n : Nat) : ',' ∉ natDigits n :=
  comma_not_mem_natDigitsAux (n + 1) n

theorem comma_not_mem_padLeft (w : Nat) (l : List Char) (h : ',' ∉ l) :
    ',' ∉ padLeft w l := by
  simp only [padLeft, List.mem_append, not_or]
  exact ⟨fun hh => by simpa using (List.eq_of_mem_replicate hh), h⟩

theorem comma_not_mem_toFixed4Pos (x : ℚ) : ',' ∉ toFixed4Pos x := by
  simp only [toFixed4Pos, List.mem_append, List.mem_cons, not_or]
  refine ⟨comma_not_mem_natDigits _, by decide, ?_⟩
  exact comma_not_mem_padLeft 4 _ (comma_not_mem_natDigits _)

theorem comma_not_mem_toFixed4 (x : ℚ) : ',' ∉ (toFixed4 x).data := by
  show ',' ∉ (if x < 0 then '-' :: toFixed4Pos (-x) else toFixed4Pos x)
  split
  · simp only [List.mem_cons, not_or]
    exact ⟨by decide, comma_not_mem_toFixed4Pos _⟩
  · exact comma_not_mem_toFixed4Pos _

theorem append_comma_inj (a : List Char) : ∀ (b r s : List Char),
    ',' ∉ a → ',' ∉ b → a ++ ',' :: r = b ++ ',' :: s → a = b ∧ r = s := by
  induction a with
  | nil =>
      intro b r s _ hb heq
      cases b with
      | nil => simpa using heq
      | cons c b₂ =>
          simp only [List.nil_append, List.cons_append, List.cons.injEq] at heq
          exact absurd (heq.1 ▸ List.mem_cons_self ',' b₂) (heq.1 ▸ hb)
  | cons c a₂ ih =>
      intro b r s ha hb heq
      cases b with
      | nil =>
          simp only [List.cons_append, List.nil_append, List.cons.injEq] at heq
          exact absurd (heq.1 ▸ List.mem_cons_self c a₂) (heq.1 ▸ ha)
      | cons c₂ b₂ =>
          simp only [List.cons_append, List.cons.injEq] at heq
          have ha₂ : ',' ∉ a₂ := fun hh => ha (List.mem_cons_of_mem c hh)
          have hb₂ : ',' ∉ b₂ := fun hh => hb (List.mem_cons_of_mem c₂ hh)
          obtain ⟨h₁, h₂⟩ := ih b₂ r s ha₂ hb₂ heq.2
          exact ⟨by rw [heq.1, h₁], h₂⟩

theorem weatherKey_eq_iff (lat lon : ℚ) (u : String) (lat₂ lon₂ : ℚ)
    (u₂ : String) :
    OpenWeather.getWeatherCacheKey lat lon u
      = OpenWeather.getWeatherCacheKey lat₂ lon₂ u₂
    ↔ toFixed4 lat = toFixed4 lat₂ ∧ toFixed4 lon = toFixed4 lon₂ ∧ u = u₂ := by
  constructor
  · intro h
    have hcomma : ("," : String).data = [','] := rfl
    have hd := congrArg String.data h
    simp only [OpenWeather.getWeatherCacheKey, String.data_append, hcomma,
      List.append_assoc, List.cons_append, List.nil_append] at hd
    obtain ⟨h₁, h₂⟩ := append_comma_inj _ _ _ _ (comma_not_mem_toFixed4 lat)
      (comma_not_mem_toFixed4 lat₂) hd
    obtain ⟨h₃, h₄⟩ := append_comma_inj _ _ _ _ (comma_not_mem_toFixed4 lon)
      (comma_not_mem_toFixed4 lon₂) h₂
    exact ⟨String.ext h₁, String.ext h₃, String.ext h₄⟩
  · rintro ⟨h₁, h₂, h₃⟩
    rw [OpenWeather.getWeatherCacheKey, OpenWeather.getWeatherCacheKey,
      h₁, h₂, h₃]

/-- C2: for every cache and every key K and value V, after put(K,V) at
time t a get(K) at time tq returns V when tq is before t plus the TTL and
absent when tq is at or past the expiry, in which case the expired entry
is removed from the store by the lookup; getFromCache never returns an
entry whose expiry has passed. -/
theorem cache_put_get_ttl_contract (α : Type)
    (cache : List (String × CacheEntry α)) (K : String) (V : α) (t tq : Nat)
    (hnodup : keysNodup cache) :
    (tq < t + OpenWeather.CACHE_TTL →
      (OpenWeather.getFromCache (OpenWeather.setInCache cache K V t) K tq).1
        = some V)
    ∧ (t + OpenWeather.CACHE_TTL ≤ tq →
      (OpenWeather.getFromCache (OpenWeather.setInCache cache K V t) K tq).1
        = none
      ∧ mapGet
          (OpenWeather.getFromCache (OpenWeather.setInCache cache K V t) K tq).2
          K = none)
    ∧ (∀ (c : List (String × CacheEntry α)) (k : String) (d : α),
        (OpenWeather.getFromCache c k tq).1 = some d →
        ∃ e, mapGet c k = some e ∧ tq < e.expires ∧ e.data = d) := by
  have hset : mapGet (OpenWeather.setInCache cache K V t) K
      = some ⟨V, t + OpenWeather.CACHE_TTL⟩ :=
    mapGet_mapSet_self cache K _
  refine ⟨?_, ?_, ?_⟩
  · intro h
    simp only [OpenWeather.getFromCache, hset]
    rw [if_pos (by omega)]
  · intro h
    simp only [OpenWeather.getFromCache, hset]
    rw [if_neg (by omega)]
    refine ⟨rfl, ?_⟩
    exact mapGet_mapDelete_self _ K (keysNodup_mapSet cache K _ hnodup)
  · intro c k d h
    rcases hg : mapGet c k with _ | e
    · simp [OpenWeather.getFromCache, hg] at h
    · simp only [OpenWeather.getFromCache, hg] at h
      by_cases hexp : e.expires > tq
      · rw [if_pos hexp] at h
        exact ⟨e, rfl, hexp, Option.some_injective α h⟩
      · rw [if_neg hexp] at h
        simp at h

/-- Witness for C2 at a concrete instance: one entry inserted at time 0
into the empty cache is returned at time 1. -/
theorem cache_put_get_ttl_contract_witness :
    (OpenWeather.getFromCache
      (OpenWeather.setInCache ([] : List (String × CacheEntry Nat)) "k" 7 0)
      "k" 1).1 = some 7 :=
  (cache_put_get_ttl_contract Nat [] "k" 7 0 1 (by simp [keysNodup, mapKeys])).1
    (by norm_num [OpenWeather.CACHE_TTL])

/-- C1: every failed network call is classified by fetchWithTimeout: a
failure whose cause is the abort/timeout signal becomes an OpenWeatherError
with statusCode 504, any other network failure becomes one with statusCode
503, and the same classified error is what geocodeCity and
fetchCurrentWeather raise on a cache miss with a failing network call, so
no raw network exception ever reaches the caller. -/
theorem fetchWithTimeout_network_failure_classification :
    (∀ (ρ : Type) (e : JsError),
      OpenWeather.fetchWithTimeout (ρ := ρ) (.netFailure e)
        = .error (if isTimeoutSignal e
            then ⟨504, "Request timeout - OpenWeather API did not respond in time", none⟩
            else ⟨503, "Failed to connect to OpenWeather API", some e⟩))
    ∧ (∀ (e : JsError) (city : String) (now : Nat)
        (cache : List (String × CacheEntry OpenWeather.GeocodingResult)),
        (OpenWeather.getFromCache cache (OpenWeather.getGeoCacheKey city) now).1
          = none →
        (OpenWeather.geocodeCity city (.netFailure e) now cache).result
          = .error (if isTimeoutSignal e
              then ⟨504, "Request timeout - OpenWeather API did not respond in time", none⟩
              else ⟨503, "Failed to connect to OpenWeather API", some e⟩))
    ∧ (∀ (e : JsError) (lat lon : ℚ) (units lang : String) (now : Nat)
        (cache : List (String × CacheEntry OpenWeather.OpenWeatherCurrentResponse)),
        (OpenWeather.getFromCache cache
            (OpenWeather.getWeatherCacheKey lat lon units) now).1 = none →
        (OpenWeather.fetchCurrentWeather lat lon units lang (.netFailure e)
            now cache).result
          = .error (if isTimeoutSignal e
              then ⟨504, "Request timeout - OpenWeather API did not respond in time", none⟩
              else ⟨503, "Failed to connect to OpenWeather API", some e⟩)) := by
  refine ⟨?_, ?_, ?_⟩
  · intro ρ e
    by_cases ht : isTimeoutSignal e <;>
      simp [OpenWeather.fetchWithTimeout, ht]
  · intro e city now cache hmiss
    rcases hg : OpenWeather.getFromCache cache
        (OpenWeather.getGeoCacheKey city) now with ⟨v, c₁⟩
    have hv : v = none := by rw [hg] at hmiss; exact hmiss
    subst hv
    by_cases ht : isTimeoutSignal e <;>
      simp [OpenWeather.geocodeCity, hg, OpenWeather.fetchWithTimeout, ht]
  · intro e lat lon units lang now cache hmiss
    rcases hg : OpenWeather.getFromCache cache
        (OpenWeather.getWeatherCacheKey lat lon units) now with ⟨v, c₁⟩
    have hv : v = none := by rw [hg] at hmiss; exact hmiss
    subst hv
    by_cases ht : isTimeoutSignal e <;>
      simp [OpenWeather.fetchCurrentWeather, hg, OpenWeather.fetchWithTimeout, ht]

/-- Witness for C1 at concrete inputs: a TimeoutError DOMException on an
empty geocoding cache yields the 504 error, a plain connection error
yields the 503 error. -/
theorem fetchWithTimeout_network_failure_classification_witness :
    (OpenWeather.geocodeCity "London"
        (.netFailure ⟨true, "TimeoutError"⟩) 0 []).result
      = .error ⟨504, "Request timeout - OpenWeather API did not respond in time", none⟩
    ∧ (OpenWeather.fetchCurrentWeather 51 0 "metric" "en"
        (.netFailure ⟨false, "ConnectionRefused"⟩) 0 []).result
      = .error ⟨503, "Failed to connect to OpenWeather API",
          some ⟨false, "ConnectionRefused"⟩⟩ := by
  constructor
  · have h := fetchWithTimeout_network_failure_classification.2.1
      ⟨true, "TimeoutError"⟩ "London" 0 [] (by simp [OpenWeather.getFromCache, mapGet])
    simpa using h
  · have h := fetchWithTimeout_network_failure_classification.2.2
      ⟨false, "ConnectionRefused"⟩ 51 0 "metric" "en" 0 []
      (by simp [OpenWeather.getFromCache, mapGet])
    simpa using h

/-- C5: the error mapper is a pure function of its status and message:
it preserves the incoming statusCode for every code, produces the fixed
user-safe messages for 401, 404 and 429, emits exactly one telemetry
notification at warning severity when and only when the code is 429, and
the route-level mapToHTTPException carries status and message through
unchanged. -/
theorem mapOpenWeatherError_contract (s : Nat) (msg : Option String) :
    (OpenWeather.mapOpenWeatherError s msg).1.statusCode = s
    ∧ (s = 401 →
        (OpenWeather.mapOpenWeatherError s msg).1.errorMessage = "Invalid API key")
    ∧ (s = 404 →
        (OpenWeather.mapOpenWeatherError s msg).1.errorMessage = "City not found")
    ∧ (s = 429 →
        (OpenWeather.mapOpenWeatherError s msg).1.errorMessage = "Rate limit exceeded")
    ∧ ((OpenWeather.mapOpenWeatherError s msg).2
        = if s = 429
          then [Telemetry.captureMessage "OpenWeather API rate limit exceeded"
            "warning" msg]
          else [])
    ∧ (mapToHTTPException (OpenWeather.mapOpenWeatherError s msg).1
        = ⟨s, (OpenWeather.mapOpenWeatherError s msg).1.errorMessage⟩) := by
  unfold OpenWeather.mapOpenWeatherError
  split <;> simp_all [mapToHTTPException]

/-- Witness for C5 at the concrete input 429: the fixed message and the
single warning-severity telemetry event. -/
theorem mapOpenWeatherError_contract_witness :
    (OpenWeather.mapOpenWeatherError 429 (some "upstream limit")).1.errorMessage
      = "Rate limit exceeded"
    ∧ (OpenWeather.mapOpenWeatherError 429 (some "upstream limit")).2
      = [Telemetry.captureMessage "OpenWeather API rate limit exceeded"
          "warning" (some "upstream limit")] := by
  have h := mapOpenWeatherError_contract 429 (some "upstream limit")
  exact ⟨h.2.2.2.1 rfl, by simpa using h.2.2.2.2.1⟩

theorem mapOpenWeatherError_statusCode (s : Nat) (msg : Option String) :
    (OpenWeather.mapOpenWeatherError s msg).1.statusCode = s := by
  unfold OpenWeather.mapOpenWeatherError
  split <;> simp_all

/-- C4: geocodeCity raises a 404 OpenWeatherError exactly when the lookup
missed the cache and the upstream call yielded not-found, namely an ok
response whose validated payload is the empty array, or a non-ok response
with HTTP status 404; the empty array raises the 404-class error with the
city appended, the HTTP 404 raises statusCode 404 with message City not
found, and a transport failure instead raises 503 or 504. -/
theorem geocodeCity_404_iff (city : String)
    (outcome : FetchOutcome (OpenWeather.HttpResponse (List OpenWeather.GeocodingResult)))
    (now : Nat) (cache : List (String × CacheEntry OpenWeather.GeocodingResult)) :
    ((∃ err, (OpenWeather.geocodeCity city outcome now cache).result = .error err
        ∧ err.statusCode = 404)
      ↔ ((OpenWeather.getFromCache cache (OpenWeather.getGeoCacheKey city) now).1
            = none
         ∧ ((∃ r, outcome = .response r ∧ r.ok = true ∧ r.payload = .valid [])
            ∨ (∃ r, outcome = .response r ∧ r.ok = false ∧ r.status = 404))))
    ∧ (∀ r, outcome = .response r →
        (OpenWeather.getFromCache cache (OpenWeather.getGeoCacheKey city) now).1
          = none →
        r.ok = true → r.payload = .valid [] →
        (OpenWeather.geocodeCity city outcome now cache).result
          = .error ⟨404, "City not found: " ++ city, none⟩)
    ∧ (∀ r, outcome = .response r →
        (OpenWeather.getFromCache cache (OpenWeather.getGeoCacheKey city) now).1
          = none →
        r.ok = false → r.status = 404 →
        (OpenWeather.geocodeCity city outcome now cache).result
          = .error ⟨404, "City not found", none⟩)
    ∧ (∀ e, outcome = .netFailure e →
        ∀ err, (OpenWeather.geocodeCity city outcome now cache).result
            = .error err →
          err.statusCode = 503 ∨ err.statusCode = 504) := by
  rcases hg : OpenWeather.getFromCache cache (OpenWeather.getGeoCacheKey city) now
    with ⟨v, c₁⟩
  refine ⟨?_, ?_, ?_, ?_⟩
  · cases v with
    | some cached => simp [OpenWeather.geocodeCity, hg]
    | none =>
      cases outcome with
      | netFailure e =>
          by_cases ht : isTimeoutSignal e <;>
            simp [OpenWeather.geocodeCity, hg, OpenWeather.fetchWithTimeout, ht]
      | response r =>
          by_cases hok : r.ok
          · rcases hp : r.payload with l | raw
            · cases l with
              | nil =>
                  simp [OpenWeather.geocodeCity, hg,
                    OpenWeather.fetchWithTimeout, hok, hp]
              | cons x xs =>
                  simp [OpenWeather.geocodeCity, hg,
                    OpenWeather.fetchWithTimeout, hok, hp]
            · simp [OpenWeather.geocodeCity, hg,
                OpenWeather.fetchWithTimeout, hok, hp]
          · have hok₂ : r.ok = false := by simpa using hok
            simp only [OpenWeather.geocodeCity, hg,
              OpenWeather.fetchWithTimeout, hok₂]
            try rw [if_pos rfl]
            constructor
            · rintro ⟨err, herr, h404⟩
              refine ⟨trivial, Or.inr ⟨r, rfl, hok₂, ?_⟩⟩
              have herr₂ : (OpenWeather.mapOpenWeatherError r.status
                  (OpenWeather.errBodyMessage r)).1 = err := by
                simpa using herr
              rw [← mapOpenWeatherError_statusCode r.status
                (OpenWeather.errBodyMessage r), herr₂, h404]
            · rintro ⟨-, h | h⟩
              · obtain ⟨r₂, hr₂, hok₃, -⟩ := h
                rw [← FetchOutcome.response.inj hr₂] at hok₃
                rw [hok₂] at hok₃
                simp at hok₃
              · obtain ⟨r₂, hr₂, -, hstat⟩ := h
                rw [← FetchOutcome.response.inj hr₂] at hstat
                refine ⟨(OpenWeather.mapOpenWeatherError r.status
                    (OpenWeather.errBodyMessage r)).1, by simp, ?_⟩
                rw [mapOpenWeatherError_statusCode, hstat]
  · rintro r rfl hmiss hok hp
    have hv : v = none := by simpa using hmiss
    subst hv
    simp [OpenWeather.geocodeCity, hg, OpenWeather.fetchWithTimeout, hok, hp]
  · rintro r rfl hmiss hok hstat
    have hv : v = none := by simpa using hmiss
    subst hv
    simp [OpenWeather.geocodeCity, hg, OpenWeather.fetchWithTimeout, hok,
      hstat, OpenWeather.mapOpenWeatherError]
  · rintro e rfl err herr
    cases v with
    | some cached => simp [OpenWeather.geocodeCity, hg] at herr
    | none =>
        by_cases ht : isTimeoutSignal e
        · have hres : (OpenWeather.geocodeCity city (.netFailure e) now cache).result
              = .error ⟨504, "Request timeout - OpenWeather API did not respond in time", none⟩ := by
            simp [OpenWeather.geocodeCity, hg, OpenWeather.fetchWithTimeout, ht]
          rw [hres] at herr
          rw [← Except.error.inj herr]
          exact Or.inr rfl
        · have hres : (OpenWeather.geocodeCity city (.netFailure e) now cache).result
              = .error ⟨503, "Failed to connect to OpenWeather API", some e⟩ := by
            simp [OpenWeather.geocodeCity, hg, OpenWeather.fetchWithTimeout, ht]
          rw [hres] at herr
          rw [← Except.error.inj herr]
          exact Or.inl rfl

/-- C6: for both upstream operations, an ok response whose payload fails
schema validation makes the operation report the failure to telemetry with
the raw payload and the query context attached and raise a 500-class
OpenWeatherError; an invalid payload is never returned as a success. -/
theorem schema_validation_reported_then_500 :
    (∀ (city : String)
        (r : OpenWeather.HttpResponse (List OpenWeather.GeocodingResult))
        (raw : String) (now : Nat)
        (cache : List (String × CacheEntry OpenWeather.GeocodingResult)),
        (OpenWeather.getFromCache cache (OpenWeather.getGeoCacheKey city) now).1
          = none →
        r.ok = true → r.payload = .invalid raw →
        (OpenWeather.geocodeCity city (.response r) now cache).result
          = .error ⟨500, "Invalid response from geocoding API", none⟩
        ∧ (OpenWeather.geocodeCity city (.response r) now cache).telemetry
          = [Telemetry.captureExceptionGeo raw city]
        ∧ ∀ v, (OpenWeather.geocodeCity city (.response r) now cache).result
            ≠ .ok v)
    ∧ (∀ (lat lon : ℚ) (units lang : String)
        (r : OpenWeather.HttpResponse OpenWeather.OpenWeatherCurrentResponse)
        (raw : String) (now : Nat)
        (cache : List (String × CacheEntry OpenWeather.OpenWeatherCurrentResponse)),
        (OpenWeather.getFromCache cache
            (OpenWeather.getWeatherCacheKey lat lon units) now).1 = none →
        r.ok = true → r.payload = .invalid raw →
        (OpenWeather.fetchCurrentWeather lat lon units lang (.response r)
            now cache).result
          = .error ⟨500, "Invalid response from weather API", none⟩
        ∧ (OpenWeather.fetchCurrentWeather lat lon units lang (.response r)
            now cache).telemetry
          = [Telemetry.captureExceptionWeather raw lat lon units]
        ∧ ∀ v, (OpenWeather.fetchCurrentWeather lat lon units lang (.response r)
            now cache).result ≠ .ok v) := by
  constructor
  · intro city r raw now cache hmiss hok hp
    rcases hg : OpenWeather.getFromCache cache
        (OpenWeather.getGeoCacheKey city) now with ⟨v, c₁⟩
    have hv : v = none := by rw [hg] at hmiss; exact hmiss
    subst hv
    refine ⟨?_, ?_, ?_⟩ <;>
      simp [OpenWeather.geocodeCity, hg, OpenWeather.fetchWithTimeout, hok, hp]
  · intro lat lon units lang r raw now cache hmiss hok hp
    rcases hg : OpenWeather.getFromCache cache
        (OpenWeather.getWeatherCacheKey lat lon units) now with ⟨v, c₁⟩
    have hv : v = none := by rw [hg] at hmiss; exact hmiss
    subst hv
    refine ⟨?_, ?_, ?_⟩ <;>
      simp [OpenWeather.fetchCurrentWeather, hg, OpenWeather.fetchWithTimeout,
        hok, hp]

/-- Witness for C6 at concrete inputs: an invalid geocoding payload on the
empty cache yields the 500 error and the telemetry event carrying the raw
payload and the city. -/
theorem schema_validation_reported_then_500_witness :
    (OpenWeather.geocodeCity "London"
        (.response { ok := true, status := 200, payload := .invalid "oops" })
        0 []).result
      = .error ⟨500, "Invalid response from geocoding API", none⟩
    ∧ (OpenWeather.geocodeCity "London"
        (.response { ok := true, status := 200, payload := .invalid "oops" })
        0 []).telemetry
      = [Telemetry.captureExceptionGeo "oops" "London"] := by
  have h := schema_validation_reported_then_500.1 "London"
    { ok := true, status := 200, payload := .invalid "oops" } "oops" 0 []
    (by simp [OpenWeather.getFromCache, mapGet]) rfl rfl
  exact ⟨h.1, h.2.1⟩

/-- C7: the transformed response has a precipitation block exactly when
the snapshot carries a rain field or a snow field, and the block copies
exactly the rain and snow volumes the snapshot carried. -/
theorem transform_precipitation_iff
    (w : OpenWeather.OpenWeatherCurrentResponse) (units : String)
    (cached : Bool) :
    ((OpenWeather.transformWeatherResponse w units cached).precipitation = none
      ↔ (w.rain = none ∧ w.snow = none))
    ∧ (∀ p, (OpenWeather.transformWeatherResponse w units cached).precipitation
          = some p →
        p.rain = w.rain ∧ p.snow = w.snow) := by
  cases hr : w.rain with
  | none =>
      cases hs : w.snow with
      | none => simp [OpenWeather.transformWeatherResponse, hr, hs]
      | some s => simp [OpenWeather.transformWeatherResponse, hr, hs]
  | some r =>
      cases hs : w.snow with
      | none => simp [OpenWeather.transformWeatherResponse, hr, hs]
      | some s => simp [OpenWeather.transformWeatherResponse, hr, hs]

/-- Witness for C7 at a concrete input: the rainy sample produces a
precipitation block copying its rain volume and absent snow. -/
theorem transform_precipitation_iff_witness :
    ({ rain := some { h1 := some 0.5, h3 := none }, snow := none } :
        OpenWeather.PrecipitationResponse).rain = sampleRainy.rain
    ∧ ({ rain := some { h1 := some 0.5, h3 := none }, snow := none } :
        OpenWeather.PrecipitationResponse).snow = sampleRainy.snow :=
  (transform_precipitation_iff sampleRainy "metric" false).2
    { rain := some { h1 := some 0.5, h3 := none }, snow := none } rfl

section

attribute [local semireducible] Rat.add Rat.mul Rat.inv Rat.sub Rat.ofScientific

/-- C3: two fetchCurrentWeather calls address the same weather-cache entry
exactly when their latitudes and longitudes agree after rounding to four
decimal places (the toFixed(4) rendering) and their units strings are
equal; concretely, calls at (51.50741, -0.12781) and (51.50739, -0.12779)
with identical units share one entry, so only the first issues an upstream
request and the second result is flagged cached, while metric and imperial
calls at identical coordinates never share an entry and issue two upstream
requests. -/
theorem weather_cache_key_equivalence :
    (∀ (lat lon : ℚ) (units : String) (lat₂ lon₂ : ℚ) (units₂ : String),
      OpenWeather.getWeatherCacheKey lat lon units
        = OpenWeather.getWeatherCacheKey lat₂ lon₂ units₂
      ↔ (toFixed4 lat = toFixed4 lat₂ ∧ toFixed4 lon = toFixed4 lon₂
          ∧ units = units₂))
    ∧ (let outcome : FetchOutcome (OpenWeather.HttpResponse OpenWeather.OpenWeatherCurrentResponse) :=
        .response { ok := true, status := 200, payload := .valid sampleSnapshot }
       let first := OpenWeather.fetchCurrentWeather 51.50741 (-0.12781)
         "metric" "en" outcome 0 []
       let second := OpenWeather.fetchCurrentWeather 51.50739 (-0.12779)
         "metric" "en" outcome 0 first.cache
       first.result = .ok (sampleSnapshot, false)
       ∧ first.request = some (51.50741, -0.12781, "metric", "en")
       ∧ second.result = .ok (sampleSnapshot, true)
       ∧ second.request = none)
    ∧ (let outcome : FetchOutcome (OpenWeather.HttpResponse OpenWeather.OpenWeatherCurrentResponse) :=
        .response { ok := true, status := 200, payload := .valid sampleSnapshot }
       let mfirst := OpenWeather.fetchCurrentWeather 51.5074 (-0.1278)
         "metric" "en" outcome 0 []
       let msecond := OpenWeather.fetchCurrentWeather 51.5074 (-0.1278)
         "imperial" "en" outcome 0 mfirst.cache
       mfirst.result = .ok (sampleSnapshot, false)
       ∧ mfirst.request.isSome = true
       ∧ msecond.result = .ok (sampleSnapshot, false)
       ∧ msecond.request.isSome = true) := by
  refine ⟨weatherKey_eq_iff, by decide, by decide⟩

end

/-- C8: getCurrentWeather selects the weather-fetch coordinates as
follows: with a (truthy) city name the geocoded coordinates are used,
independent of any caller-supplied lat and lon; without a city name the
caller-supplied coordinates are used directly; and with neither a city
name nor coordinates the fetch is issued for latitude 0 and longitude 0
instead of the query being rejected. -/
theorem getCurrentWeather_coordinate_selection
    (q : OpenWeather.WeatherQuery)
    (genv : FetchOutcome (OpenWeather.HttpResponse (List OpenWeather.GeocodingResult)))
    (wenv : FetchOutcome (OpenWeather.HttpResponse OpenWeather.OpenWeatherCurrentResponse))
    (now : Nat) (st : OpenWeather.ServiceState) :
    (OpenWeather.cityTruthy q.city = true →
      ∀ geo, (OpenWeather.geocodeCity (q.city.getD "") genv now st.geoCache).result
          = .ok geo →
        (OpenWeather.getCurrentWeather q genv wenv now st).fetchArgs
          = some (geo.lat, geo.lon, q.units, q.lang.getD "en"))
    ∧ (OpenWeather.cityTruthy q.city = false →
        (OpenWeather.getCurrentWeather q genv wenv now st).fetchArgs
          = some (q.lat.getD 0, q.lon.getD 0, q.units, q.lang.getD "en"))
    ∧ ((q.city = none ∨ q.city = some "") → q.lat = none → q.lon = none →
        (OpenWeather.getCurrentWeather q genv wenv now st).fetchArgs
          = some (0, 0, q.units, q.lang.getD "en")) := by
  refine ⟨?_, ?_, ?_⟩
  · intro hcity geo hgeo
    simp [OpenWeather.getCurrentWeather, hcity, hgeo]
  · intro hcity
    simp [OpenWeather.getCurrentWeather, hcity]
  · intro hcity hlat hlon
    have hcity₂ : OpenWeather.cityTruthy q.city = false := by
      rcases hcity with h | h <;> simp [OpenWeather.cityTruthy, h]
    simp [OpenWeather.getCurrentWeather, hcity₂, hlat, hlon]

/-- Witness for C8 at concrete inputs: a city query with stray caller
coordinates fetches at the geocoded coordinates, and an empty query
fetches at (0, 0). -/
theorem getCurrentWeather_coordinate_selection_witness :
    (OpenWeather.getCurrentWeather
        { city := some "London", units := "metric", lat := some 10, lon := some 20 }
        (.response { ok := true, status := 200, payload := .valid [sampleGeo] })
        (.netFailure ⟨false, "x"⟩) 0 ⟨[], []⟩).fetchArgs
      = some (sampleGeo.lat, sampleGeo.lon, "metric", "en")
    ∧ (OpenWeather.getCurrentWeather { city := none, units := "metric" }
        (.response { ok := true, status := 200, payload := .valid [sampleGeo] })
        (.netFailure ⟨false, "x"⟩) 0 ⟨[], []⟩).fetchArgs
      = some (0, 0, "metric", "en") := by
  constructor
  · exact (getCurrentWeather_coordinate_selection
      { city := some "London", units := "metric", lat := some 10, lon := some 20 }
      (.response { ok := true, status := 200, payload := .valid [sampleGeo] })
      (.netFailure ⟨false, "x"⟩) 0 ⟨[], []⟩).1 rfl sampleGeo
      (by simp [OpenWeather.geocodeCity, OpenWeather.getFromCache, mapGet,
        OpenWeather.fetchWithTimeout, OpenWeather.getGeoCacheKey])
  · exact (getCurrentWeather_coordinate_selection
      { city := none, units := "metric" }
      (.response { ok := true, status := 200, payload := .valid [sampleGeo] })
      (.netFailure ⟨false, "x"⟩) 0 ⟨[], []⟩).2.2 (Or.inl rfl) rfl rfl

/-- C9: the text-generation cache is bounded by MAX_CACHE_ENTRIES: when an
insert finds the cache at or past capacity, exactly the single
oldest-inserted entry (the head of the insertion-ordered store) is deleted
before the new entry is set, so the entry count stays at most the maximum;
the OpenWeather setInCache has no such bound and grows by one on every
fresh key regardless of size. -/
theorem ollama_cache_bounded_fifo :
    (∀ (cache : List (String × CacheEntry OllamaAI.AITextResponse))
        (key : String) (data : OllamaAI.AITextResponse) (now : Nat),
        (∀ p ∈ cache, p.1 ≠ "") →
        cache.length ≤ OllamaAI.MAX_CACHE_ENTRIES →
        (OllamaAI.setInCache cache key data now).length
          ≤ OllamaAI.MAX_CACHE_ENTRIES)
    ∧ (∀ (cache : List (String × CacheEntry OllamaAI.AITextResponse))
        (key : String) (data : OllamaAI.AITextResponse) (now : Nat)
        (oldest : String × CacheEntry OllamaAI.AITextResponse)
        (rest : List (String × CacheEntry OllamaAI.AITextResponse)),
        cache = oldest :: rest → oldest.1 ≠ "" →
        cache.length = OllamaAI.MAX_CACHE_ENTRIES →
        OllamaAI.setInCache cache key data now
          = mapSet rest key ⟨data, now + OllamaAI.CACHE_TTL⟩)
    ∧ (∀ (α : Type) (cache : List (String × CacheEntry α)) (key : String)
        (data : α) (now : Nat),
        mapGet cache key = none →
        (OpenWeather.setInCache cache key data now).length
          = cache.length + 1) := by
  refine ⟨?_, ?_, ?_⟩
  · intro cache key data now hne hlen
    by_cases hcap : cache.length ≥ OllamaAI.MAX_CACHE_ENTRIES
    · cases cache with
      | nil => simp [OllamaAI.MAX_CACHE_ENTRIES] at hcap
      | cons p rest =>
          obtain ⟨k₀, v₀⟩ := p
          have hk₀ : k₀ ≠ "" := hne (k₀, v₀) (List.mem_cons_self _ _)
          have hdel : mapDelete ((k₀, v₀) :: rest) k₀ = rest := by
            simp [mapDelete]
          have hstep : OllamaAI.setInCache ((k₀, v₀) :: rest) key data now
              = mapSet rest key ⟨data, now + OllamaAI.CACHE_TTL⟩ := by
            simp only [OllamaAI.setInCache, if_pos hcap, mapKeys,
              List.map_cons, List.head?_cons, Option.some.injEq]
            rw [if_pos hk₀, hdel]
          rw [hstep]
          have := length_mapSet_le rest key
            (⟨data, now + OllamaAI.CACHE_TTL⟩ : CacheEntry OllamaAI.AITextResponse)
          simp only [List.length_cons] at hlen
          omega
    · have hstep : OllamaAI.setInCache cache key data now
          = mapSet cache key ⟨data, now + OllamaAI.CACHE_TTL⟩ := by
        simp only [OllamaAI.setInCache, if_neg hcap]
      rw [hstep]
      have := length_mapSet_le cache key
        (⟨data, now + OllamaAI.CACHE_TTL⟩ : CacheEntry OllamaAI.AITextResponse)
      omega
  · intro cache key data now oldest rest hcache hne hlen
    subst hcache
    obtain ⟨k₀, v₀⟩ := oldest
    have hdel : mapDelete ((k₀, v₀) :: rest) k₀ = rest := by
      simp [mapDelete]
    simp only [OllamaAI.setInCache, hlen, ge_iff_le, le_refl, if_pos,
      mapKeys, List.map_cons, List.head?_cons]
    rw [if_pos (show k₀ ≠ "" from hne), hdel]
  · intro α cache key data now habsent
    exact length_mapSet_of_absent cache key _ habsent

/-- Witness for C9 at concrete inputs: inserting into the empty bounded
cache keeps the count within the bound, and a fresh key grows the
unbounded OpenWeather cache by one. -/
theorem ollama_cache_bounded_fifo_witness :
    (OllamaAI.setInCache ([] : List (String × CacheEntry OllamaAI.AITextResponse))
        "h::m::p" ⟨"t"⟩ 0).length ≤ OllamaAI.MAX_CACHE_ENTRIES
    ∧ (OpenWeather.setInCache ([] : List (String × CacheEntry Nat)) "k" 1 0).length
      = 0 + 1 := by
  constructor
  · exact ollama_cache_bounded_fifo.1 [] "h::m::p" ⟨"t"⟩ 0 (by simp)
      (by simp [OllamaAI.MAX_CACHE_ENTRIES])
  · exact ollama_cache_bounded_fifo.2.2 Nat [] "k" 1 0 rfl

/-- C10: the three ISO-8601 strings of the normalized response are
computed from the epoch seconds alone and rendered in UTC: the
timezoneOffset parameter of unixToISOString has no effect on its result,
and changing the timezone field of a snapshot changes none of the
formatted timestamp, sunrise and sunset strings. -/
theorem unixToISOString_ignores_timezone_offset :
    (∀ (ts off : ℤ), OpenWeather.unixToISOString ts off
        = OpenWeather.isoOfMillis (ts * 1000))
    ∧ (∀ (ts off off₂ : ℤ),
        OpenWeather.unixToISOString ts off
          = OpenWeather.unixToISOString ts off₂)
    ∧ (∀ (w : OpenWeather.OpenWeatherCurrentResponse) (units : String)
        (cached : Bool) (tz : ℤ),
        (OpenWeather.transformWeatherResponse { w with timezone := tz }
            units cached).timestamp
          = (OpenWeather.transformWeatherResponse w units cached).timestamp
        ∧ (OpenWeather.transformWeatherResponse { w with timezone := tz }
            units cached).location.sunrise
          = (OpenWeather.transformWeatherResponse w units cached).location.sunrise
        ∧ (OpenWeather.transformWeatherResponse { w with timezone := tz }
            units cached).location.sunset
          = (OpenWeather.transformWeatherResponse w units cached).location.sunset) :=
  ⟨fun _ _ => rfl, fun _ _ _ => rfl, fun _ _ _ _ => ⟨rfl, rfl, rfl⟩⟩

/-- Witness for C4 at concrete inputs: an empty validated result array
yields the 404 error naming the city, and an upstream HTTP 404 yields
statusCode 404 with message City not found. -/
theorem geocodeCity_404_iff_witness :
    (OpenWeather.geocodeCity "Atlantis"
        (.response { ok := true, status := 200, payload := .valid [] })
        0 []).result
      = .error ⟨404, "City not found: " ++ "Atlantis", none⟩
    ∧ (OpenWeather.geocodeCity "Nowhere"
        (.response { ok := false, status := 404, payload := .valid [] })
        0 []).result
      = .error ⟨404, "City not found", none⟩ := by
  constructor
  · exact (geocodeCity_404_iff "Atlantis"
      (.response { ok := true, status := 200, payload := .valid [] }) 0 []).2.1
      { ok := true, status := 200, payload := .valid [] } rfl
      (by simp [OpenWeather.getFromCache, mapGet]) rfl rfl
  · exact (geocodeCity_404_iff "Nowhere"
      (.response { ok := false, status := 404, payload := .valid [] }) 0 []).2.2.1
      { ok := false, status := 404, payload := .valid [] } rfl
      (by simp [OpenWeather.getFromCache, mapGet]) rfl rfl
